import Mathlib

/-!
# Verification of the Volta on-disk layout and shim-resolution engine

A shallow embedding of `crates/volta-core/src/path/unix.rs`: the layout
provider (path construction for inventory and image directories), the shim
resolver (`shim_executable`), the root lookup (`default_volta_home`) and the
symlink creation wrapper (`create_file_symlink`).

Rust `PathBuf` values are modelled as `String`s; `PathBuf::join` with a
relative component appends a `/` separator and the component.  The
environment (the `VOLTA_SHIM` variable and the host home directory) and the
filesystem are explicit parameters; the filesystem is an association list
from paths to entries.  Fallible functions return `Except ErrorDetails`.
-/

namespace Volta

/-- Rust `PathBuf::join` with a relative component: append separator and component. -/
def pathJoin (base component : String) : String := base ++ "/" ++ component

/-- The error variants of `ErrorDetails` relevant to the path module
(from `crates/volta-core/src/error.rs` usage sites in `unix.rs`). -/
inductive ErrorDetails where
  | noHomeEnvironmentVar
  | shimExecutableNotFound
  deriving DecidableEq, Repr

/-- The ambient inputs read by the path module: the `VOLTA_SHIM` environment
variable (`env::var_os("VOLTA_SHIM")`) and the host home directory
(`dirs::home_dir()`). -/
structure Env where
  voltaShim : Option String
  homeDir : Option String
  deriving DecidableEq, Repr

/-- A filesystem entry: a regular file, a directory, or a symbolic link
recording its target path. -/
inductive FsEntry where
  | file
  | dir
  | symlink (target : String)
  deriving DecidableEq, Repr

/-- A filesystem state: an association list from absolute paths to entries. -/
structure FileSystem where
  entries : List (String × FsEntry)
  deriving DecidableEq, Repr

/-- Look up the entry at a path. -/
def FileSystem.lookup (fs : FileSystem) (p : String) : Option FsEntry :=
  (fs.entries.find? (fun e => e.1 == p)).map (·.2)

/-- Rust `Path::exists`: whether an entry is present at the path. -/
def FileSystem.pathExists (fs : FileSystem) (p : String) : Bool :=
  (fs.lookup p).isSome

/-- The target-OS component of the `cfg_if!` block in `unix.rs`: the only
unix targets the crate compiles for.  Any other `target_os` value hits
`compile_error!`, so no further constructor exists. -/
inductive TargetOs where
  | macos
  | linux
  deriving DecidableEq, Repr

/-- The target-architecture component of the `cfg_if!` block in `unix.rs`:
the only architectures the crate compiles for.  Any other `target_arch`
value hits `compile_error!`, so no further constructor exists. -/
inductive TargetArch where
  | x86
  | x86_64
  deriving DecidableEq, Repr

/-- The `OS` constant: the OS component of a Node distribution tarball's
name, selected per compile target. -/
def OS : TargetOs → String
  | .macos => "darwin"
  | .linux => "linux"

/-- The `ARCH` constant: the architecture component of a Node distribution
tarball's name, selected per compile target. -/
def ARCH : TargetArch → String
  | .x86 => "x86"
  | .x86_64 => "x64"

/-- Function `default_volta_home`: the host home directory joined with `.volta`,
or the no-home error when `dirs::home_dir()` returns `None`. -/
def default_volta_home (env : Env) : Except ErrorDetails String :=
  match env.homeDir with
  | none => .error .noHomeEnvironmentVar
  | some home => .ok (pathJoin home ".volta")

/-- Modelled from the spec: `volta_home` is defined in the path module root
(`path/mod.rs`), which is not among the given sources.  Per the spec the
root directory "Must resolve via the host's home-directory lookup; fails
with a `NoHomeDirectory` error if unavailable", i.e. it is the default
root. -/
def volta_home (env : Env) : Except ErrorDetails String :=
  default_volta_home env

/-- Function `archive_extension`: the extension of a Node distribution
archive on unix. -/
def archive_extension : String := "tar.gz"

/-- The root-relative location of a Node image, modelled from the spec's
on-disk layout: `tools/image/node/<runtimeVersion>/<pairedVersion>`. -/
def node_image_subpath (root node npm : String) : String :=
  pathJoin (pathJoin (pathJoin (pathJoin (pathJoin root "tools") "image") "node") node) npm

/-- Modelled from the spec: `node_image_dir` is defined in the path module
root (`path/mod.rs`), which is not among the given sources.  Per the spec's
on-disk layout, the image of a (runtime version, package-manager version)
pair lives at `<root>/tools/image/node/<runtimeVersion>/<pairedVersion>`. -/
def node_image_dir (env : Env) (node npm : String) : Except ErrorDetails String :=
  match volta_home env with
  | .error e => .error e
  | .ok root => .ok (node_image_subpath root node npm)

/-- Function `node_image_bin_dir`: the `bin` directory of a Node image. -/
def node_image_bin_dir (env : Env) (node npm : String) : Except ErrorDetails String :=
  match node_image_dir env node npm with
  | .error e => .error e
  | .ok dir => .ok (pathJoin dir "bin")

/-- Modelled from the spec: `node_distro_file_name` is defined in the path
module root (`path/mod.rs`), which is not among the given sources.  Per the
spec the runtime distribution filename encodes
`{tool}-{version}-{os}-{arch}.{ext}` with a `v` prefix on the version, as in
the layout comment's `node-v4.8.4-linux-x64.tar.gz`. -/
def node_distro_file_name (os : TargetOs) (arch : TargetArch) (version : String) : String :=
  "node-v" ++ version ++ "-" ++ OS os ++ "-" ++ ARCH arch ++ "." ++ archive_extension

/-- The fixed fallback location of the shared shim binary, used when an RPM
is installed as root. -/
def rpmShimPath : String := "/usr/bin/volta-lib/shim"

/-- Function `shim_executable`: resolve the shared shim binary.  The `VOLTA_SHIM`
override wins verbatim; otherwise the default `<root>/shim` is returned if
it exists; otherwise the fixed RPM fallback path is returned if it exists;
otherwise the resolution fails. -/
def shim_executable (env : Env) (fs : FileSystem) : Except ErrorDetails String :=
  match env.voltaShim with
  | some shimLocation => .ok shimLocation
  | none =>
    match volta_home env with
    | .error e => .error e
    | .ok root =>
      let defaultShimExecutable := pathJoin root "shim"
      if fs.pathExists defaultShimExecutable then .ok defaultShimExecutable
      else if fs.pathExists rpmShimPath then .ok rpmShimPath
      else .error .shimExecutableNotFound

/-- A primitive filesystem operation, used to trace what a function does to
the filesystem. -/
inductive FsOp where
  | existsCheck (path : String)
  | create (path : String) (entry : FsEntry)
  | modify (path : String) (entry : FsEntry)
  | delete (path : String)
  deriving DecidableEq, Repr

/-- The effect of one traced operation on the filesystem: an existence
check leaves it unchanged; the mutating operations do not. -/
def FsOp.apply (op : FsOp) (fs : FileSystem) : FileSystem :=
  match op with
  | .existsCheck _ => fs
  | .create p e => ⟨(p, e) :: fs.entries⟩
  | .modify p e => ⟨(p, e) :: fs.entries.filter (fun x => x.1 != p)⟩
  | .delete p => ⟨fs.entries.filter (fun x => x.1 != p)⟩

/-- Apply a trace of operations in order. -/
def applyOps (ops : List FsOp) (fs : FileSystem) : FileSystem :=
  ops.foldl (fun acc op => op.apply acc) fs

/-- Function `shim_executable`, instrumented: the same control flow, additionally
returning the list of filesystem operations performed, in order. -/
def shim_executable_ops (env : Env) (fs : FileSystem) :
    Except ErrorDetails String × List FsOp :=
  match env.voltaShim with
  | some shimLocation => (.ok shimLocation, [])
  | none =>
    match volta_home env with
    | .error e => (.error e, [])
    | .ok root =>
      let defaultShimExecutable := pathJoin root "shim"
      if fs.pathExists defaultShimExecutable then
        (.ok defaultShimExecutable, [.existsCheck defaultShimExecutable])
      else if fs.pathExists rpmShimPath then
        (.ok rpmShimPath, [.existsCheck defaultShimExecutable, .existsCheck rpmShimPath])
      else
        (.error .shimExecutableNotFound,
          [.existsCheck defaultShimExecutable, .existsCheck rpmShimPath])

/-- The error type of `std::io`, restricted to the condition exercised
here. -/
inductive IoError where
  | alreadyExists
  deriving DecidableEq, Repr

/-- Modelled from the spec: the semantics of the OS symbolic-link creation
primitive (`std::os::unix::fs::symlink`), which is outside this crate.  Per
the spec, creating a link at an existing destination "must fail with a
'destination exists' condition, not silently succeed or silently
overwrite", and on failure nothing is created. -/
def symlinkSyscall (src dst : String) (fs : FileSystem) :
    Except IoError Unit × FileSystem :=
  if fs.pathExists dst then (.error .alreadyExists, fs)
  else (.ok (), ⟨(dst, .symlink src) :: fs.entries⟩)

/-- Function `create_file_symlink`: a direct pass-through to the OS symlink call;
the `dst` path becomes a symbolic link pointing to the `src` path. -/
def create_file_symlink (src dst : String) (fs : FileSystem) :
    Except IoError Unit × FileSystem :=
  symlinkSyscall src dst fs

/-!
## Theorems for the claims
-/

/-- C2: with root `/home/u/.volta` the image directory for runtime version
`10.13.0` paired with package-manager version `6.4.0` is
`/home/u/.volta/tools/image/node/10.13.0/6.4.0`, and for every environment
and every pair of version strings, `node_image_bin_dir` is `node_image_dir`
joined with `bin`. -/
theorem node_image_dir_scenario :
    node_image_dir ⟨none, some "/home/u"⟩ "10.13.0" "6.4.0"
      = .ok "/home/u/.volta/tools/image/node/10.13.0/6.4.0" ∧
    node_image_bin_dir ⟨none, some "/home/u"⟩ "10.13.0" "6.4.0"
      = .ok "/home/u/.volta/tools/image/node/10.13.0/6.4.0/bin" ∧
    (∀ (env : Env) (node npm : String),
      node_image_bin_dir env node npm
        = (node_image_dir env node npm).map (fun d => pathJoin d "bin")) := by
  refine ⟨rfl, rfl, ?_⟩
  intro env node npm
  unfold node_image_bin_dir
  cases node_image_dir env node npm <;> rfl

/-- C3: on the linux/x64 build, the runtime distribution archive filename
for version `10.13.0` is exactly `node-v10.13.0-linux-x64.tar.gz`, with OS
identifier `linux`, architecture identifier `x64` and archive extension
`tar.gz`. -/
theorem node_distro_file_name_linux_x64 :
    node_distro_file_name .linux .x86_64 "10.13.0" = "node-v10.13.0-linux-x64.tar.gz" ∧
    OS .linux = "linux" ∧ ARCH .x86_64 = "x64" ∧ archive_extension = "tar.gz" :=
  ⟨rfl, rfl, rfl, rfl⟩

/-- C4: the root lookup returns the home directory joined with the fixed
subpath `.volta` whenever a home directory resolves, and fails with the
no-home error when it does not; the match on the optional home directory
makes these the only two outcomes. -/
theorem default_volta_home_spec (env : Env) :
    (env.homeDir = none → default_volta_home env = .error .noHomeEnvironmentVar) ∧
    (∀ h, env.homeDir = some h → default_volta_home env = .ok (pathJoin h ".volta")) := by
  constructor
  · intro hnone
    simp [default_volta_home, hnone]
  · intro h hsome
    simp [default_volta_home, hsome]

/-- Witness for C4 at concrete inputs: no home yields the no-home error,
home `/home/u` yields `/home/u/.volta`. -/
theorem default_volta_home_spec_witness :
    default_volta_home ⟨none, none⟩ = .error .noHomeEnvironmentVar ∧
    default_volta_home ⟨none, some "/home/u"⟩ = .ok (pathJoin "/home/u" ".volta") :=
  ⟨(default_volta_home_spec ⟨none, none⟩).1 rfl,
   (default_volta_home_spec ⟨none, some "/home/u"⟩).2 "/home/u" rfl⟩

/-- C7: the platform identifiers form a closed set fixed per build target:
`darwin` on macOS, `linux` on Linux, `x86` on x86, `x64` on x86_64, and no
identifier is empty.  Any other target combination has no constructor in
`TargetOs`/`TargetArch`, reflecting the build-time `compile_error`. -/
theorem platform_identifiers_closed :
    OS .macos = "darwin" ∧ OS .linux = "linux" ∧
    ARCH .x86 = "x86" ∧ ARCH .x86_64 = "x64" ∧
    (∀ os : TargetOs, OS os = "darwin" ∨ OS os = "linux") ∧
    (∀ arch : TargetArch, ARCH arch = "x86" ∨ ARCH arch = "x64") ∧
    (∀ os : TargetOs, OS os ≠ "") ∧
    (∀ arch : TargetArch, ARCH arch ≠ "") := by
  refine ⟨rfl, rfl, rfl, rfl, ?_, ?_, ?_, ?_⟩ <;> intro t <;> cases t
  · exact Or.inl rfl
  · exact Or.inr rfl
  · exact Or.inl rfl
  · exact Or.inr rfl
  · decide
  · decide
  · decide
  · decide

/-- C9: when the override is unset and the home lookup fails,
`shim_executable` fails with the no-home error for every filesystem state,
and performs no existence check at all (in particular the RPM fallback path
is never checked, even when it exists). -/
theorem shim_executable_no_home (fs : FileSystem) :
    shim_executable ⟨none, none⟩ fs = .error .noHomeEnvironmentVar ∧
    (shim_executable_ops ⟨none, none⟩ fs).2 = [] :=
  ⟨rfl, rfl⟩

/-- C10: when the override is set, `shim_executable` returns the override
verbatim, for every home-directory state including an unresolvable home,
performs no filesystem operation, and its result is identical across any
two filesystem states. -/
theorem shim_executable_override_pure (v : String) (home : Option String)
    (fs₁ fs₂ : FileSystem) :
    shim_executable ⟨some v, home⟩ fs₁ = .ok v ∧
    shim_executable_ops ⟨some v, home⟩ fs₁ = (.ok v, []) ∧
    shim_executable ⟨some v, home⟩ fs₁ = shim_executable ⟨some v, home⟩ fs₂ :=
  ⟨rfl, rfl, rfl⟩

/-- C1 counterexample: the claim quantifies over every environment, but
with the override unset, no resolvable home, and the RPM fallback present
on disk, resolution fails with the no-home error instead of returning the
existing fallback path (and not with the not-found error either). -/
theorem shim_executable_priority_cex :
    FileSystem.pathExists ⟨[(rpmShimPath, FsEntry.file)]⟩ rpmShimPath = true ∧
    shim_executable ⟨none, none⟩ ⟨[(rpmShimPath, FsEntry.file)]⟩
      = .error .noHomeEnvironmentVar ∧
    shim_executable ⟨none, none⟩ ⟨[(rpmShimPath, FsEntry.file)]⟩ ≠ .ok rpmShimPath ∧
    shim_executable ⟨none, none⟩ ⟨[(rpmShimPath, FsEntry.file)]⟩
      ≠ .error .shimExecutableNotFound := by
  refine ⟨rfl, rfl, ?_, ?_⟩ <;> intro hcontra <;>
    simp [shim_executable, volta_home, default_volta_home] at hcontra

/-- C1 (amended): `shim_executable` resolves in fixed priority order with
first match winning — a set override is returned verbatim with no
existence check; otherwise, provided the home lookup succeeds with root
`<root>`, the default `<root>/shim` is returned if it exists, else the
fallback `/usr/bin/volta-lib/shim` if it exists, else the not-found error
(when the override is unset and the home lookup fails, the no-home error
propagates instead). -/
theorem shim_executable_priority (env : Env) (fs : FileSystem) :
    (∀ v, env.voltaShim = some v → shim_executable env fs = .ok v) ∧
    (∀ root, env.voltaShim = none → volta_home env = .ok root →
      shim_executable env fs =
        if fs.pathExists (pathJoin root "shim") then .ok (pathJoin root "shim")
        else if fs.pathExists rpmShimPath then .ok rpmShimPath
        else .error .shimExecutableNotFound) := by
  constructor
  · intro v hv
    simp [shim_executable, hv]
  · intro root h0 hroot
    simp [shim_executable, h0, hroot]

/-- Witness for C1 (amended): with no override, home `/home/u`, and only
the fallback on disk, resolution returns the fallback; with an override
set, resolution returns the override. -/
theorem shim_executable_priority_witness :
    shim_executable ⟨none, some "/home/u"⟩ ⟨[(rpmShimPath, FsEntry.file)]⟩
      = .ok rpmShimPath ∧
    shim_executable ⟨some "/x/shim", none⟩ ⟨[]⟩ = .ok "/x/shim" := by
  constructor
  · rw [(shim_executable_priority ⟨none, some "/home/u"⟩
        ⟨[(rpmShimPath, FsEntry.file)]⟩).2 (pathJoin "/home/u" ".volta") rfl rfl]
    rfl
  · exact (shim_executable_priority ⟨some "/x/shim", none⟩ ⟨[]⟩).1 "/x/shim" rfl

/-- C6: creating a symlink at an existing destination fails with the
destination-exists error, with the filesystem returned unchanged (no
silent success, no overwrite, no cleanup); at a fresh destination it
succeeds and the destination becomes a symbolic link pointing to the
source. -/
theorem create_file_symlink_spec (src dst : String) (fs : FileSystem) :
    (fs.pathExists dst = true →
      create_file_symlink src dst fs = (.error .alreadyExists, fs)) ∧
    (fs.pathExists dst = false →
      create_file_symlink src dst fs = (.ok (), ⟨(dst, .symlink src) :: fs.entries⟩) ∧
      ((create_file_symlink src dst fs).2).lookup dst = some (.symlink src)) := by
  constructor
  · intro h
    simp [create_file_symlink, symlinkSyscall, h]
  · intro h
    refine ⟨by simp [create_file_symlink, symlinkSyscall, h], ?_⟩
    simp [create_file_symlink, symlinkSyscall, h, FileSystem.lookup, List.find?]

/-- Witness for C6 at concrete inputs: an occupied destination fails with
the destination-exists error and an empty filesystem gains exactly the new
link. -/
theorem create_file_symlink_spec_witness :
    create_file_symlink "/a" "/b" ⟨[("/b", FsEntry.file)]⟩
      = (.error .alreadyExists, ⟨[("/b", FsEntry.file)]⟩) ∧
    create_file_symlink "/a" "/b" ⟨[]⟩ = (.ok (), ⟨[("/b", FsEntry.symlink "/a")]⟩) :=
  ⟨(create_file_symlink_spec "/a" "/b" ⟨[("/b", FsEntry.file)]⟩).1 rfl,
   ((create_file_symlink_spec "/a" "/b" ⟨[]⟩).2 rfl).1⟩

/-- C8: every invocation of `shim_executable` performs at most two
filesystem operations, each an existence check of the default shim path or
of the RPM fallback path; applying its operation trace leaves the
filesystem unchanged; and the instrumented trace computes the same result
as the function itself. -/
theorem shim_executable_frame (env : Env) (fs : FileSystem) :
    (shim_executable_ops env fs).2.length ≤ 2 ∧
    (∀ op ∈ (shim_executable_ops env fs).2, ∃ root, volta_home env = .ok root ∧
      (op = .existsCheck (pathJoin root "shim") ∨ op = .existsCheck rpmShimPath)) ∧
    applyOps (shim_executable_ops env fs).2 fs = fs ∧
    (shim_executable_ops env fs).1 = shim_executable env fs := by
  obtain ⟨vs, hd⟩ := env
  cases vs with
  | some v => exact ⟨by simp [shim_executable_ops], by simp [shim_executable_ops], rfl, rfl⟩
  | none =>
    cases hd with
    | none =>
      exact ⟨by simp [shim_executable_ops, volta_home, default_volta_home],
             by simp [shim_executable_ops, volta_home, default_volta_home], rfl, rfl⟩
    | some h =>
      by_cases h1 : fs.pathExists (pathJoin (pathJoin h ".volta") "shim")
      · refine ⟨?_, ?_, ?_, ?_⟩
        · simp [shim_executable_ops, volta_home, default_volta_home, h1]
        · intro op hop
          simp [shim_executable_ops, volta_home, default_volta_home, h1] at hop
          exact ⟨pathJoin h ".volta", rfl, Or.inl hop⟩
        · simp [shim_executable_ops, volta_home, default_volta_home, h1, applyOps,
            FsOp.apply]
        · simp [shim_executable_ops, shim_executable, volta_home, default_volta_home, h1]
      · by_cases h2 : fs.pathExists rpmShimPath
        · refine ⟨?_, ?_, ?_, ?_⟩
          · simp [shim_executable_ops, volta_home, default_volta_home, h1, h2]
          · intro op hop
            simp [shim_executable_ops, volta_home, default_volta_home, h1, h2] at hop
            rcases hop with hop | hop
            · exact ⟨pathJoin h ".volta", rfl, Or.inl hop⟩
            · exact ⟨pathJoin h ".volta", rfl, Or.inr hop⟩
          · simp [shim_executable_ops, volta_home, default_volta_home, h1, h2, applyOps,
              FsOp.apply]
          · simp [shim_executable_ops, shim_executable, volta_home,
              default_volta_home, h1, h2]
        · refine ⟨?_, ?_, ?_, ?_⟩
          · simp [shim_executable_ops, volta_home, default_volta_home, h1, h2]
          · intro op hop
            simp [shim_executable_ops, volta_home, default_volta_home, h1, h2] at hop
            rcases hop with hop | hop
            · exact ⟨pathJoin h ".volta", rfl, Or.inl hop⟩
            · exact ⟨pathJoin h ".volta", rfl, Or.inr hop⟩
          · simp [shim_executable_ops, volta_home, default_volta_home, h1, h2, applyOps,
              FsOp.apply]
          · simp [shim_executable_ops, shim_executable, volta_home,
              default_volta_home, h1, h2]

/-- Witness for C8 at a concrete input: on an empty filesystem with home
`/home/u`, the first traced operation is the existence check of the
default shim path under the resolved root. -/
theorem shim_executable_frame_witness :
    ∃ root, volta_home ⟨none, some "/home/u"⟩ = .ok root ∧
      (FsOp.existsCheck (pathJoin (pathJoin "/home/u" ".volta") "shim")
          = .existsCheck (pathJoin root "shim") ∨
       FsOp.existsCheck (pathJoin (pathJoin "/home/u" ".volta") "shim")
          = .existsCheck rpmShimPath) :=
  (shim_executable_frame ⟨none, some "/home/u"⟩ ⟨[]⟩).2.1
    (FsOp.existsCheck (pathJoin (pathJoin "/home/u" ".volta") "shim")) (by decide)

/-- Unfolding lemma: joining paths appends a separator character at the
character-list level. -/
theorem pathJoin_data (a b : String) :
    (pathJoin a b).data = a.data ++ '/' :: b.data := by
  show (a ++ "/" ++ b).data = _
  rw [String.data_append, String.data_append, List.append_assoc]
  rfl

/-- Separator-splitting is unambiguous: two separator-free segments followed
by a separator determine each other. -/
theorem append_sep_eq {a b c d : List Char}
    (ha : '/' ∉ a) (hc : '/' ∉ c)
    (h : a ++ '/' :: b = c ++ '/' :: d) : a = c ∧ b = d := by
  induction a generalizing c with
  | nil =>
    cases c with
    | nil => exact ⟨rfl, by simpa using h⟩
    | cons y ys =>
      simp only [List.nil_append, List.cons_append, List.cons.injEq] at h
      exact absurd (by rw [h.1]; exact List.mem_cons_self y ys) hc
  | cons x xs ih =>
    cases c with
    | nil =>
      simp only [List.cons_append, List.nil_append, List.cons.injEq] at h
      exact absurd (by rw [← h.1]; exact List.mem_cons_self x xs) ha
    | cons y ys =>
      simp only [List.cons_append, List.cons.injEq] at h
      obtain ⟨hxy, htail⟩ := h
      obtain ⟨h1, h2⟩ := ih (fun hm => ha (List.mem_cons_of_mem x hm))
        (fun hm => hc (List.mem_cons_of_mem y hm)) htail
      exact ⟨by rw [hxy, h1], h2⟩

/-- C5 counterexample: over arbitrary strings the naming scheme does
collide — the distinct version pairs ("a/b", "c") and ("a", "b/c") yield
the same image bin path under the same root. -/
theorem node_image_bin_dir_collision :
    node_image_bin_dir ⟨none, some "/home/u"⟩ "a/b" "c"
      = node_image_bin_dir ⟨none, some "/home/u"⟩ "a" "b/c" ∧
    (("a/b", "c") : String × String) ≠ ("a", "b/c") := by
  exact ⟨rfl, by decide⟩

/-- C5 (amended): for version strings that contain no path-separator
character, `node_image_bin_dir` is injective over (node version, npm
version) pairs under any fixed resolvable root: equal bin paths force
equal version pairs. -/
theorem node_image_bin_dir_injective (h n₁ p₁ n₂ p₂ : String)
    (hn₁ : '/' ∉ n₁.data) (hp₁ : '/' ∉ p₁.data)
    (hn₂ : '/' ∉ n₂.data) (hp₂ : '/' ∉ p₂.data)
    (heq : node_image_bin_dir ⟨none, some h⟩ n₁ p₁
      = node_image_bin_dir ⟨none, some h⟩ n₂ p₂) :
    n₁ = n₂ ∧ p₁ = p₂ := by
  simp only [node_image_bin_dir, node_image_dir, volta_home, default_volta_home,
    node_image_subpath, Except.ok.injEq] at heq
  have hdata := congrArg String.data heq
  simp only [pathJoin_data, List.append_assoc, List.cons_append] at hdata
  simp only [List.nil_append, List.append_right_inj, List.cons.injEq, true_and] at hdata
  obtain ⟨hn, hrest⟩ := append_sep_eq hn₁ hn₂ hdata
  obtain ⟨hp, -⟩ := append_sep_eq hp₁ hp₂ hrest
  exact ⟨String.ext hn, String.ext hp⟩

/-- Witness for C5 (amended) at concrete separator-free inputs. -/
theorem node_image_bin_dir_injective_witness :
    ("10.13.0" : String) = "10.13.0" ∧ ("6.4.0" : String) = "6.4.0" :=
  node_image_bin_dir_injective "/home/u" "10.13.0" "6.4.0" "10.13.0" "6.4.0"
    (by decide) (by decide) (by decide) (by decide) rfl

end Volta
